import Mathlib

/-!
Verification of the `terrain-automation` notebook (bliptrip/terrain-notebook).

The notebook is a linear script: prompt for credentials, exchange them for a
bearer token at `GET /terrain/token` (HTTP basic auth), search for an app at
`GET /terrain/apps?search=...`, select the first search result, and fetch the
full app description at `GET /terrain/apps/{system_id}/{app_id}`.  Each call is
followed by `r.raise_for_status()` from the `requests` library, which raises an
`HTTPError` exactly when the status code is a client error (4xx) or a server
error (5xx).

We embed the script shallowly: JSON values are an inductive type, a server is a
function from requests to responses, Python runtime failures (HTTPError,
KeyError, IndexError, TypeError) are an error type in `Except`, and the script
is a function from a server and the two prompted strings to the list of HTTP
requests it issues together with its outcome.
-/

/-- Parsed JSON values, as produced by `r.json()` (Python dicts, lists,
strings, numbers, booleans, None). -/
inductive Json where
  | null : Json
  | bool (b : Bool) : Json
  | num (n : Int) : Json
  | str (s : String) : Json
  | arr (elems : List Json) : Json
  | obj (fields : List (String × Json)) : Json
deriving Repr

/-- Python runtime errors the notebook can raise: `requests.HTTPError` from
`raise_for_status`, `KeyError` from `d[key]` on a dict, `IndexError` from
`l[i]` on a list, `TypeError` from subscripting or `+` on the wrong type. -/
inductive PyError where
  | httpError (status : Nat) : PyError
  | keyError (key : String) : PyError
  | indexError : PyError
  | typeError : PyError
deriving Repr, DecidableEq

/-- Python `value[key]` with a string key: succeeds only on a dict that has the
key (`KeyError` on a dict without it, `TypeError` on any non-dict). -/
def Json.subscript : Json → String → Except PyError Json
  | .obj fields, key =>
      match fields.lookup key with
      | some v => .ok v
      | none => .error (.keyError key)
  | _, _ => .error .typeError

/-- Python `value[i]` with a non-negative integer index.  On a list it selects
the element or raises `IndexError`; on a string it selects a one-character
string; a dict parsed from JSON has only string keys, so an integer subscript
raises `KeyError`; other values raise `TypeError`. -/
def Json.index : Json → Nat → Except PyError Json
  | .arr elems, i =>
      match elems.get? i with
      | some v => .ok v
      | none => .error .indexError
  | .str s, i =>
      match s.toList.get? i with
      | some c => .ok (.str (String.mk [c]))
      | none => .error .indexError
  | .obj _, i => .error (.keyError (toString i))
  | _, _ => .error .typeError

/-- Whether the JSON value is a dict containing the given key. -/
def Json.hasKey : Json → String → Bool
  | .obj fields, key => (fields.lookup key).isSome
  | _, _ => false

/-- A single quote character, used by Python `repr` of strings. -/
def singleQuote : String := String.mk [Char.ofNat 39]

mutual

/-- Python `repr` of a JSON value (as used by `str` on containers).  String
escaping inside `repr` is not modelled; no claim depends on it. -/
def Json.pyRepr : Json → String
  | .null => "None"
  | .bool true => "True"
  | .bool false => "False"
  | .num n => toString n
  | .str s => singleQuote ++ s ++ singleQuote
  | .arr elems => "[" ++ pyReprElems elems ++ "]"
  | .obj fields => "\x7b" ++ pyReprFields fields ++ "\x7d"

/-- Comma-separated `repr`s of list elements. -/
def pyReprElems : List Json → String
  | [] => ""
  | [x] => x.pyRepr
  | x :: xs => x.pyRepr ++ ", " ++ pyReprElems xs

/-- Comma-separated `repr`s of dict entries. -/
def pyReprFields : List (String × Json) → String
  | [] => ""
  | [(k, v)] => singleQuote ++ k ++ singleQuote ++ ": " ++ v.pyRepr
  | (k, v) :: fs =>
      singleQuote ++ k ++ singleQuote ++ ": " ++ v.pyRepr ++ ", " ++ pyReprFields fs

end

/-- Python `str` of a JSON value, as used by `"...{0}/{1}".format(...)`:
a string formats as itself, anything else as its `repr`. -/
def Json.pyStr : Json → String
  | .str s => s
  | v => v.pyRepr

/-- Python `prefix + value` where `prefix` is a string: string concatenation
when `value` is a string, `TypeError` otherwise. -/
def strAdd (pre : String) : Json → Except PyError String
  | .str s => .ok (pre ++ s)
  | _ => .error .typeError

/-- An HTTP request as issued by `requests.get`: the method is always `GET`;
`basicAuth` models the `auth=(username, password)` keyword. -/
structure HttpRequest where
  method : String
  url : String
  headers : List (String × String)
  params : List (String × String)
  basicAuth : Option (String × String)
deriving Repr, DecidableEq

/-- An HTTP response: a status code and the parsed JSON body `r.json()`. -/
structure HttpResponse where
  status : Nat
  body : Json
deriving Repr

/-- A server assigns a response to every request (mock HTTP backend). -/
def Server : Type := HttpRequest → HttpResponse

/-- `requests.Response.raise_for_status`: raises `HTTPError` exactly for
client-error (400-499) and server-error (500-599) status codes. -/
def raiseForStatus (status : Nat) : Except PyError Unit :=
  if 400 ≤ status ∧ status < 600 then .error (.httpError status) else .ok ()

/-- The request of `requests.get("https://de.cyverse.org/terrain/token",
auth=(username, password))`. -/
def tokenRequest (username password : String) : HttpRequest :=
  { method := "GET"
    url := "https://de.cyverse.org/terrain/token"
    headers := []
    params := []
    basicAuth := some (username, password) }

/-- The request of `requests.get("https://de.cyverse.org/terrain/apps",
headers=auth_headers, params={"search": "JupyterLab-with-sql-1.0.9"})`. -/
def searchRequest (authHeaders : List (String × String)) : HttpRequest :=
  { method := "GET"
    url := "https://de.cyverse.org/terrain/apps"
    headers := authHeaders
    params := [("search", "JupyterLab-with-sql-1.0.9")]
    basicAuth := none }

/-- `"https://de.cyverse.org/terrain/apps/{0}/{1}".format(system_id, app_id)`. -/
def detailUrl (system_id app_id : String) : String :=
  "https://de.cyverse.org/terrain/apps/" ++ system_id ++ "/" ++ app_id

/-- The request of `requests.get(url, headers=auth_headers)` for the app
detail fetch. -/
def detailRequest (authHeaders : List (String × String))
    (system_id app_id : String) : HttpRequest :=
  { method := "GET"
    url := detailUrl system_id app_id
    headers := authHeaders
    params := []
    basicAuth := none }

/-- `r.json()['access_token']` on the token response. -/
def tokenOf (r : HttpResponse) : Except PyError Json :=
  r.body.subscript "access_token"

/-- The token-exchange cell: issue the token request, `raise_for_status`,
extract `access_token`, and form `"Bearer " + token` (which requires the token
to be a string).  Returns the value of the `Authorization` header. -/
def tokenStep (server : Server) (username password : String) :
    Except PyError String :=
  match raiseForStatus (server (tokenRequest username password)).status with
  | .error e => .error e
  | .ok _ =>
      match tokenOf (server (tokenRequest username password)) with
      | .error e => .error e
      | .ok tok => strAdd "Bearer " tok

/-- `auth_headers = {"Authorization": "Bearer " + token}`, given the already
concatenated header value. -/
def authHeadersOf (bearer : String) : List (String × String) :=
  [("Authorization", bearer)]

/-- The app-selection cell: `app_listing = r.json()["apps"][0]`,
`system_id = app_listing["system_id"]`, `app_id = app_listing["id"]`,
then their `str` forms as interpolated by `format`. -/
def appSelection (body : Json) : Except PyError (String × String) :=
  match (body.subscript "apps").bind (fun apps => apps.index 0) with
  | .error e => .error e
  | .ok app_listing =>
      match app_listing.subscript "system_id" with
      | .error e => .error e
      | .ok sid =>
          match app_listing.subscript "id" with
          | .error e => .error e
          | .ok aid => .ok (sid.pyStr, aid.pyStr)

/-- The trace of one run of the notebook: the HTTP requests issued, in order,
and the final outcome (the detail body that is pretty-printed, or the Python
error that terminated the script). -/
structure RunTrace where
  issued : List HttpRequest
  outcome : Except PyError Json
deriving Repr

/-- The whole notebook, from the two prompted strings to its trace: token
exchange, app search, first-result selection, app-detail fetch.  Execution
stops at the first raised error; there are no retries. -/
def runWorkflow (server : Server) (username password : String) : RunTrace :=
  match tokenStep server username password with
  | .error e => ⟨[tokenRequest username password], .error e⟩
  | .ok bearer =>
      match raiseForStatus (server (searchRequest (authHeadersOf bearer))).status with
      | .error e =>
          ⟨[tokenRequest username password, searchRequest (authHeadersOf bearer)],
            .error e⟩
      | .ok _ =>
          match appSelection (server (searchRequest (authHeadersOf bearer))).body with
          | .error e =>
              ⟨[tokenRequest username password, searchRequest (authHeadersOf bearer)],
                .error e⟩
          | .ok (system_id, app_id) =>
              match raiseForStatus
                  (server (detailRequest (authHeadersOf bearer) system_id app_id)).status with
              | .error e =>
                  ⟨[tokenRequest username password, searchRequest (authHeadersOf bearer),
                      detailRequest (authHeadersOf bearer) system_id app_id],
                    .error e⟩
              | .ok _ =>
                  ⟨[tokenRequest username password, searchRequest (authHeadersOf bearer),
                      detailRequest (authHeadersOf bearer) system_id app_id],
                    .ok (server (detailRequest (authHeadersOf bearer) system_id app_id)).body⟩

/-! ## Mock servers used as concrete witnesses -/

/-- A happy-path mock backend matching the worked example of the spec: the
token endpoint returns `200 {"access_token": "abc123"}`, the search endpoint
returns two app summaries, and every other URL returns a full app
description. -/
def mockServer : Server := fun req =>
  if req.url = "https://de.cyverse.org/terrain/token" then
    ⟨200, .obj [("access_token", .str "abc123")]⟩
  else if req.url = "https://de.cyverse.org/terrain/apps" then
    ⟨200, .obj [("apps", .arr
      [ .obj [("system_id", .str "de"), ("id", .str "X")],
        .obj [("system_id", .str "agave"), ("id", .str "Y")]])]⟩
  else
    ⟨200, .obj [("description", .str "full app description")]⟩

/-- Token endpoint rejects the credentials with 401; used as a witness for the
abort-on-error behavior. -/
def mock401 : Server := fun _ => ⟨401, .null⟩

/-- Token endpoint answers with status 304 (non-2xx but not an error status)
and a token body; other endpoints behave like `mockServer`. -/
def mock304 : Server := fun req =>
  if req.url = "https://de.cyverse.org/terrain/token" then
    ⟨304, .obj [("access_token", .str "abc123")]⟩
  else
    mockServer req

/-- Token endpoint answers 200 but its body lacks the `access_token` key. -/
def mockNoToken : Server := fun _ =>
  ⟨200, .obj [("token_type", .str "bearer")]⟩

/-- Search endpoint answers with an empty `apps` list. -/
def mockEmptyApps : Server := fun req =>
  if req.url = "https://de.cyverse.org/terrain/token" then
    ⟨200, .obj [("access_token", .str "abc123")]⟩
  else
    ⟨200, .obj [("apps", .arr [])]⟩

/-- Search endpoint returns a first result whose `system_id` is outside the
enumerated set `de` / `agave`. -/
def mockForeignSystem : Server := fun req =>
  if req.url = "https://de.cyverse.org/terrain/token" then
    ⟨200, .obj [("access_token", .str "abc123")]⟩
  else if req.url = "https://de.cyverse.org/terrain/apps" then
    ⟨200, .obj [("apps", .arr [.obj [("system_id", .str "tapis-v3"), ("id", .str "Z")]])]⟩
  else
    ⟨200, .obj [("ok", .bool true)]⟩

/-- Whether a Python computation succeeded (returned rather than raised). -/
def pySucceeds (e : Except PyError Json) : Bool :=
  match e with
  | .ok _ => true
  | .error _ => false

/-! ## Helper lemmas -/

/-- If the token response has a non-error status and its body carries a string
`access_token`, the token-exchange cell yields the header value
`"Bearer " ++ t`. -/
theorem tokenStep_ok_of (server : Server) (u p t : String)
    (h1 : raiseForStatus (server (tokenRequest u p)).status = .ok ())
    (h2 : tokenOf (server (tokenRequest u p)) = .ok (.str t)) :
    tokenStep server u p = .ok ("Bearer " ++ t) := by
  unfold tokenStep
  rw [h1, h2]
  rfl

/-- If the search body has a non-empty `apps` list whose head carries string
`system_id` and `id` fields, app selection returns exactly those strings. -/
theorem appSelection_ok_of (body a0 : Json) (rest : List Json) (sid aid : String)
    (h4 : body.subscript "apps" = .ok (.arr (a0 :: rest)))
    (h5 : a0.subscript "system_id" = .ok (.str sid))
    (h6 : a0.subscript "id" = .ok (.str aid)) :
    appSelection body = .ok (sid, aid) := by
  unfold appSelection
  simp only [h4, Except.bind, Json.index, List.get?_cons_zero, h5, h6, Json.pyStr]

/-! ## Claims -/

/-- C1: for every token string `t` extracted from a successful token-exchange
response, every subsequent HTTP request (the app search and the app-detail
fetch) carries an `Authorization` header whose value is exactly
`"Bearer " ++ t`, with no transformation of the token. -/
theorem bearer_header_verbatim (server : Server) (u p t : String)
    (h1 : raiseForStatus (server (tokenRequest u p)).status = .ok ())
    (h2 : tokenOf (server (tokenRequest u p)) = .ok (.str t)) :
    ∀ req ∈ (runWorkflow server u p).issued.tail,
      ("Authorization", "Bearer " ++ t) ∈ req.headers := by
  have hts := tokenStep_ok_of server u p t h1 h2
  intro req hreq
  simp only [runWorkflow, hts] at hreq
  split at hreq
  · simp only [List.tail_cons, List.mem_singleton] at hreq
    subst hreq
    simp [searchRequest, authHeadersOf]
  · split at hreq
    · simp only [List.tail_cons, List.mem_singleton] at hreq
      subst hreq
      simp [searchRequest, authHeadersOf]
    · split at hreq
      · simp only [List.tail_cons, List.mem_cons, List.mem_singleton] at hreq
        rcases hreq with h | h | h
        · subst h; simp [searchRequest, authHeadersOf]
        · subst h; simp [detailRequest, authHeadersOf]
        · cases h
      · simp only [List.tail_cons, List.mem_cons, List.mem_singleton] at hreq
        rcases hreq with h | h | h
        · subst h; simp [searchRequest, authHeadersOf]
        · subst h; simp [detailRequest, authHeadersOf]
        · cases h

/-- Witness for C1: against the mock backend of the spec's example, the token
`abc123` appears verbatim in the headers of every request after the token
exchange. -/
theorem bearer_header_verbatim_witness :
    raiseForStatus (mockServer (tokenRequest "alice" "hunter2")).status = .ok () ∧
    tokenOf (mockServer (tokenRequest "alice" "hunter2")) = .ok (.str "abc123") ∧
    ∀ req ∈ (runWorkflow mockServer "alice" "hunter2").issued.tail,
      ("Authorization", "Bearer " ++ "abc123") ∈ req.headers :=
  ⟨rfl, rfl, bearer_header_verbatim mockServer "alice" "hunter2" "abc123" rfl rfl⟩

/-- C2 counterexample: the token response status 304 is not 2xx, yet
`raise_for_status` does not raise and the script continues: it issues all three
requests and finishes normally.  So "raises whenever the response status is not
2xx" is false as stated. -/
theorem non2xx_not_raised :
    (mock304 (tokenRequest "u" "p")).status = 304 ∧
    ¬(200 ≤ (304 : Nat) ∧ (304 : Nat) < 300) ∧
    raiseForStatus 304 = .ok () ∧
    (runWorkflow mock304 "u" "p").issued.length = 3 ∧
    (runWorkflow mock304 "u" "p").outcome =
      .ok (.obj [("description", .str "full app description")]) :=
  ⟨rfl, by decide, rfl, rfl, rfl⟩

/-- C2 (amended): after each of the three HTTP calls the workflow raises an
HTTP error, and terminates at that point with no retry, exactly when the
response status is a client or server error (400-599); an HTTP error is the
only kind of error raised for a status. -/
theorem http_error_policy (server : Server) (u p : String) :
    (∀ s, raiseForStatus s = .error (.httpError s) ↔ 400 ≤ s ∧ s < 600) ∧
    (∀ s e, raiseForStatus s = .error e → e = .httpError s) ∧
    (∀ e, raiseForStatus (server (tokenRequest u p)).status = .error e →
        runWorkflow server u p = ⟨[tokenRequest u p], .error e⟩) ∧
    (∀ bearer e, tokenStep server u p = .ok bearer →
        raiseForStatus (server (searchRequest (authHeadersOf bearer))).status = .error e →
        runWorkflow server u p =
          ⟨[tokenRequest u p, searchRequest (authHeadersOf bearer)], .error e⟩) ∧
    (∀ bearer sid aid e, tokenStep server u p = .ok bearer →
        raiseForStatus (server (searchRequest (authHeadersOf bearer))).status = .ok () →
        appSelection (server (searchRequest (authHeadersOf bearer))).body = .ok (sid, aid) →
        raiseForStatus
            (server (detailRequest (authHeadersOf bearer) sid aid)).status = .error e →
        runWorkflow server u p =
          ⟨[tokenRequest u p, searchRequest (authHeadersOf bearer),
              detailRequest (authHeadersOf bearer) sid aid], .error e⟩) := by
  refine ⟨?_, ?_, ?_, ?_, ?_⟩
  · intro s
    constructor
    · intro h
      by_contra hn
      unfold raiseForStatus at h
      rw [if_neg hn] at h
      cases h
    · intro h
      unfold raiseForStatus
      rw [if_pos h]
  · intro s e h
    unfold raiseForStatus at h
    split at h
    · cases h; rfl
    · cases h
  · intro e he
    have hts : tokenStep server u p = .error e := by
      unfold tokenStep
      rw [he]
    simp only [runWorkflow, hts]
  · intro bearer e hts hse
    simp only [runWorkflow, hts, hse]
  · intro bearer sid aid e hts hse happ hdet
    simp only [runWorkflow, hts, hse, happ, hdet]

/-- Witness for the amended C2: a token endpoint answering 401 makes the run
stop after the single token request with `HTTPError 401`. -/
theorem http_error_policy_witness :
    runWorkflow mock401 "u" "p" = ⟨[tokenRequest "u" "p"], .error (.httpError 401)⟩ :=
  (http_error_policy mock401 "u" "p").2.2.1 (.httpError 401) rfl

/-- C4 counterexample: a token endpoint answering 304 (a non-success status)
does not abort the workflow; both further requests are still issued. -/
theorem token_non2xx_not_aborting :
    (mock304 (tokenRequest "u2" "p2")).status = 304 ∧
    ¬(200 ≤ (304 : Nat) ∧ (304 : Nat) < 300) ∧
    (runWorkflow mock304 "u2" "p2").issued.length = 3 :=
  ⟨rfl, by decide, rfl⟩

/-- C4 (amended): if the token endpoint returns a client- or server-error
status (4xx/5xx, e.g. 401), the workflow raises an HTTP error and aborts
before issuing any further HTTP request. -/
theorem token_error_aborts (server : Server) (u p : String)
    (hlo : 400 ≤ (server (tokenRequest u p)).status)
    (hhi : (server (tokenRequest u p)).status < 600) :
    runWorkflow server u p =
      ⟨[tokenRequest u p], .error (.httpError (server (tokenRequest u p)).status)⟩ := by
  have hr : raiseForStatus (server (tokenRequest u p)).status =
      .error (.httpError (server (tokenRequest u p)).status) := by
    unfold raiseForStatus
    rw [if_pos ⟨hlo, hhi⟩]
  have hts : tokenStep server u p =
      .error (.httpError (server (tokenRequest u p)).status) := by
    unfold tokenStep
    rw [hr]
  simp only [runWorkflow, hts]

/-- Witness for the amended C4: against a 401-answering token endpoint the run
is a single request ending in `HTTPError 401`. -/
theorem token_error_aborts_witness :
    runWorkflow mock401 "bob" "pw" =
      ⟨[tokenRequest "bob" "pw"], .error (.httpError 401)⟩ :=
  token_error_aborts mock401 "bob" "pw" (by decide) (by decide)

/-- C3: whenever the search succeeds and its `apps` list is non-empty, the
detail fetch is built from the `system_id` and `id` of the FIRST element of
the list, exactly as returned by the server (no sorting, filtering or
reordering). -/
theorem first_search_result_selected (server : Server)
    (u p t sid aid : String) (a0 : Json) (rest : List Json)
    (h1 : raiseForStatus (server (tokenRequest u p)).status = .ok ())
    (h2 : tokenOf (server (tokenRequest u p)) = .ok (.str t))
    (h3 : raiseForStatus
        (server (searchRequest (authHeadersOf ("Bearer " ++ t)))).status = .ok ())
    (h4 : (server (searchRequest (authHeadersOf ("Bearer " ++ t)))).body.subscript
        "apps" = .ok (.arr (a0 :: rest)))
    (h5 : a0.subscript "system_id" = .ok (.str sid))
    (h6 : a0.subscript "id" = .ok (.str aid)) :
    (runWorkflow server u p).issued.get? 2 =
      some (detailRequest (authHeadersOf ("Bearer " ++ t)) sid aid) := by
  have hts := tokenStep_ok_of server u p t h1 h2
  have happ := appSelection_ok_of _ a0 rest sid aid h4 h5 h6
  simp only [runWorkflow, hts, h3, happ]
  split <;> rfl

/-- Witness for C3 at the spec's example search body
`{"apps": [{"system_id": "de", "id": "X"}, {"system_id": "agave", "id": "Y"}]}`:
the detail fetch uses `de` and `X`, the first element. -/
theorem first_search_result_selected_witness :
    (runWorkflow mockServer "alice" "hunter2").issued.get? 2 =
      some (detailRequest [("Authorization", "Bearer abc123")] "de" "X") :=
  first_search_result_selected mockServer "alice" "hunter2" "abc123" "de" "X"
    (.obj [("system_id", .str "de"), ("id", .str "X")])
    [.obj [("system_id", .str "agave"), ("id", .str "Y")]]
    rfl rfl rfl rfl rfl rfl

/-- C5: whenever the search succeeds with an empty `apps` list, selecting the
first element fails with an out-of-range error (`IndexError`) and the detail
fetch is never issued. -/
theorem empty_apps_index_error (server : Server) (u p t : String)
    (h1 : raiseForStatus (server (tokenRequest u p)).status = .ok ())
    (h2 : tokenOf (server (tokenRequest u p)) = .ok (.str t))
    (h3 : raiseForStatus
        (server (searchRequest (authHeadersOf ("Bearer " ++ t)))).status = .ok ())
    (h4 : (server (searchRequest (authHeadersOf ("Bearer " ++ t)))).body.subscript
        "apps" = .ok (.arr [])) :
    (runWorkflow server u p).outcome = .error .indexError ∧
    (runWorkflow server u p).issued =
      [tokenRequest u p, searchRequest (authHeadersOf ("Bearer " ++ t))] := by
  have hts := tokenStep_ok_of server u p t h1 h2
  have hidx : Json.index (.arr []) 0 = .error .indexError := rfl
  have happ : appSelection
      (server (searchRequest (authHeadersOf ("Bearer " ++ t)))).body =
        .error .indexError := by
    unfold appSelection
    simp only [h4, Except.bind, hidx]
  simp only [runWorkflow, hts, h3, happ]
  constructor <;> trivial

/-- Witness for C5: a backend whose search answers `{"apps": []}` ends the run
in `IndexError` after exactly the token and search requests. -/
theorem empty_apps_index_error_witness :
    (runWorkflow mockEmptyApps "alice" "hunter2").outcome = .error .indexError ∧
    (runWorkflow mockEmptyApps "alice" "hunter2").issued =
      [tokenRequest "alice" "hunter2",
        searchRequest [("Authorization", "Bearer abc123")]] :=
  empty_apps_index_error mockEmptyApps "alice" "hunter2" "abc123" rfl rfl rfl rfl

/-- C6: whenever all three calls succeed, the pretty-printed final value is the
detail response body itself, unmodified: no transformation, no field
extraction. -/
theorem detail_passthrough (server : Server) (u p t sid aid : String)
    (h1 : raiseForStatus (server (tokenRequest u p)).status = .ok ())
    (h2 : tokenOf (server (tokenRequest u p)) = .ok (.str t))
    (h3 : raiseForStatus
        (server (searchRequest (authHeadersOf ("Bearer " ++ t)))).status = .ok ())
    (h4 : appSelection (server (searchRequest (authHeadersOf ("Bearer " ++ t)))).body
        = .ok (sid, aid))
    (h5 : raiseForStatus
        (server (detailRequest (authHeadersOf ("Bearer " ++ t)) sid aid)).status
        = .ok ()) :
    (runWorkflow server u p).outcome =
      .ok (server (detailRequest (authHeadersOf ("Bearer " ++ t)) sid aid)).body := by
  have hts := tokenStep_ok_of server u p t h1 h2
  simp only [runWorkflow, hts, h3, h4, h5]

/-- Witness for C6: against the happy-path mock, the run's outcome is exactly
the detail endpoint's JSON body. -/
theorem detail_passthrough_witness :
    (runWorkflow mockServer "alice" "hunter2").outcome =
      .ok (.obj [("description", .str "full app description")]) :=
  detail_passthrough mockServer "alice" "hunter2" "abc123" "de" "X"
    rfl rfl rfl rfl rfl

/-- C7: the app-detail fetch is an HTTP GET whose URL is
`/terrain/apps/{system_id}/{app_id}` on the fixed host, with the system
identifier substituted first and the app identifier second, both taken from
the first search result. -/
theorem detail_url_shape (server : Server)
    (u p t sid aid : String) (a0 : Json) (rest : List Json)
    (h1 : raiseForStatus (server (tokenRequest u p)).status = .ok ())
    (h2 : tokenOf (server (tokenRequest u p)) = .ok (.str t))
    (h3 : raiseForStatus
        (server (searchRequest (authHeadersOf ("Bearer " ++ t)))).status = .ok ())
    (h4 : (server (searchRequest (authHeadersOf ("Bearer " ++ t)))).body.subscript
        "apps" = .ok (.arr (a0 :: rest)))
    (h5 : a0.subscript "system_id" = .ok (.str sid))
    (h6 : a0.subscript "id" = .ok (.str aid)) :
    ∃ req, (runWorkflow server u p).issued.get? 2 = some req ∧
      req.method = "GET" ∧
      req.url = "https://de.cyverse.org/terrain/apps/" ++ sid ++ "/" ++ aid := by
  have hts := tokenStep_ok_of server u p t h1 h2
  have happ := appSelection_ok_of _ a0 rest sid aid h4 h5 h6
  simp only [runWorkflow, hts, h3, happ]
  split <;> exact ⟨detailRequest (authHeadersOf ("Bearer " ++ t)) sid aid, rfl, rfl, rfl⟩

/-- Witness for C7: with first search result `system_id="de"`, `id="X"`, the
third request is a GET of `/terrain/apps/de/X`. -/
theorem detail_url_shape_witness :
    ∃ req, (runWorkflow mockServer "carol" "pw3").issued.get? 2 = some req ∧
      req.method = "GET" ∧
      req.url = "https://de.cyverse.org/terrain/apps/de/X" :=
  detail_url_shape mockServer "carol" "pw3" "abc123" "de" "X"
    (.obj [("system_id", .str "de"), ("id", .str "X")])
    [.obj [("system_id", .str "agave"), ("id", .str "Y")]]
    rfl rfl rfl rfl rfl rfl

/-- A search request never coincides with the token request: it carries no
basic-auth credentials. -/
theorem searchRequest_ne_tokenRequest (hdrs : List (String × String))
    (u p : String) : searchRequest hdrs ≠ tokenRequest u p := by
  intro he
  have hb := congrArg HttpRequest.basicAuth he
  simp [searchRequest, tokenRequest] at hb

/-- A detail request never coincides with the token request: it carries no
basic-auth credentials. -/
theorem detailRequest_ne_tokenRequest (hdrs : List (String × String))
    (sid aid u p : String) : detailRequest hdrs sid aid ≠ tokenRequest u p := by
  intro he
  have hb := congrArg HttpRequest.basicAuth he
  simp [detailRequest, tokenRequest] at hb

/-- C8: for every pair of prompted strings, including empty ones, the first
request of the run is an HTTP GET to the token endpoint carrying exactly those
two strings as basic-auth credentials, and the token request is issued exactly
once over the whole run (no validation, no retry). -/
theorem token_exchange_single_basic_get (server : Server) (u p : String) :
    (runWorkflow server u p).issued.get? 0 = some (tokenRequest u p) ∧
    (tokenRequest u p).method = "GET" ∧
    (tokenRequest u p).url = "https://de.cyverse.org/terrain/token" ∧
    (tokenRequest u p).basicAuth = some (u, p) ∧
    (runWorkflow server u p).issued.count (tokenRequest u p) = 1 := by
  refine ⟨?_, rfl, rfl, rfl, ?_⟩
  · unfold runWorkflow
    repeat' split
    all_goals rfl
  · unfold runWorkflow
    repeat' split
    all_goals
      simp [List.count_cons, searchRequest_ne_tokenRequest,
        detailRequest_ne_tokenRequest]

/-- C9: on a token response with a non-error status, extracting the token
succeeds exactly when the parsed body is a JSON object containing the key
`access_token`; when the body is an object without that key the whole run
stops at the token step with `KeyError "access_token"` despite the successful
HTTP status. -/
theorem token_key_lookup (server : Server) (u p : String)
    (hok : raiseForStatus (server (tokenRequest u p)).status = .ok ()) :
    (pySucceeds (tokenOf (server (tokenRequest u p)))
        = (server (tokenRequest u p)).body.hasKey "access_token") ∧
    (∀ fields, (server (tokenRequest u p)).body = .obj fields →
        fields.lookup "access_token" = none →
        runWorkflow server u p =
          ⟨[tokenRequest u p], .error (.keyError "access_token")⟩) := by
  constructor
  · simp only [tokenOf]
    generalize (server (tokenRequest u p)).body = b
    cases b with
    | obj fields =>
        rcases hl : fields.lookup "access_token" with _ | v <;>
          simp [Json.subscript, Json.hasKey, pySucceeds, hl]
    | null => rfl
    | bool b => rfl
    | num n => rfl
    | str s => rfl
    | arr elems => rfl
  · intro fields hb hl
    have h2 : tokenOf (server (tokenRequest u p)) =
        .error (.keyError "access_token") := by
      simp only [tokenOf, hb, Json.subscript, hl]
    have hts : tokenStep server u p = .error (.keyError "access_token") := by
      unfold tokenStep
      rw [hok, h2]
    simp only [runWorkflow, hts]

/-- Witness for C9: a token endpoint answering 200 with body
`{"token_type": "bearer"}` (no `access_token`) makes the run stop at the token
step with a key-lookup error. -/
theorem token_key_lookup_witness :
    runWorkflow mockNoToken "u" "p" =
      ⟨[tokenRequest "u" "p"], .error (.keyError "access_token")⟩ :=
  (token_key_lookup mockNoToken "u" "p" rfl).2 [("token_type", .str "bearer")] rfl rfl

/-- C10: the `system_id` of the first search result is interpolated into the
detail URL verbatim, for ANY string value, with no validation against the
enumerated set of backends: the detail request is still issued and its URL
embeds the value unchanged. -/
theorem system_id_not_validated (server : Server)
    (u p t s aid : String) (a0 : Json) (rest : List Json)
    (h1 : raiseForStatus (server (tokenRequest u p)).status = .ok ())
    (h2 : tokenOf (server (tokenRequest u p)) = .ok (.str t))
    (h3 : raiseForStatus
        (server (searchRequest (authHeadersOf ("Bearer " ++ t)))).status = .ok ())
    (h4 : (server (searchRequest (authHeadersOf ("Bearer " ++ t)))).body.subscript
        "apps" = .ok (.arr (a0 :: rest)))
    (h5 : a0.subscript "system_id" = .ok (.str s))
    (h6 : a0.subscript "id" = .ok (.str aid)) :
    (runWorkflow server u p).issued.length = 3 ∧
    (runWorkflow server u p).issued.get? 2 =
      some (detailRequest (authHeadersOf ("Bearer " ++ t)) s aid) ∧
    (detailRequest (authHeadersOf ("Bearer " ++ t)) s aid).url =
      "https://de.cyverse.org/terrain/apps/" ++ s ++ "/" ++ aid := by
  have hts := tokenStep_ok_of server u p t h1 h2
  have happ := appSelection_ok_of _ a0 rest s aid h4 h5 h6
  simp only [runWorkflow, hts, h3, happ]
  refine ⟨?_, ?_, rfl⟩ <;> (split <;> rfl)

/-- Witness for C10: the unrecognized system identifier `tapis-v3` (neither
`de` nor `agave`) is accepted and lands verbatim in the detail URL. -/
theorem system_id_not_validated_witness :
    ("tapis-v3" ≠ "de" ∧ "tapis-v3" ≠ "agave") ∧
    ((runWorkflow mockForeignSystem "dana" "pw4").issued.length = 3 ∧
      (runWorkflow mockForeignSystem "dana" "pw4").issued.get? 2 =
        some (detailRequest [("Authorization", "Bearer abc123")] "tapis-v3" "Z") ∧
      (detailRequest [("Authorization", "Bearer abc123")] "tapis-v3" "Z").url =
        "https://de.cyverse.org/terrain/apps/tapis-v3/Z") :=
  ⟨⟨by decide, by decide⟩,
    system_id_not_validated mockForeignSystem "dana" "pw4" "abc123" "tapis-v3" "Z"
      (.obj [("system_id", .str "tapis-v3"), ("id", .str "Z")]) []
      rfl rfl rfl rfl rfl rfl⟩
